import Mathlib

/-!
# openai-router: the Lambda handler of `main.go`

A shallow embedding of `src/openai-router/main.go`.

* Go strings and byte slices are both represented by `String`; the
  conversions `[]byte(s)` and `string(b)` of the source are identities on
  the underlying bytes and are therefore not visible in the embedding.
* A Go `error` value is a `GoError` carrying the text of `Error()`; the nil
  error is `none`.
* The collaborators that live outside the repository (the standard
  library decoder and encoder, the AWS session and SSM client, the HTTP
  transport) are the fields of `Env`.  Every function of the source takes the
  environment explicitly and returns, next to its result, the list of
  network calls it performed.
-/

namespace OpenAIRouter

/-! ## Data model -/

/-- A Go error value, identified with the text returned by `Error()`. -/
structure GoError where
  msg : String
deriving DecidableEq, Repr

/-- The type `OpenAIMessage` (main.go, lines 17-20). -/
structure OpenAIMessage where
  Role : String
  Content : String
deriving DecidableEq, Repr

/-- The type `OpenAIRequest` (main.go, lines 22-25). -/
structure OpenAIRequest where
  Model : String
  Messages : List OpenAIMessage
deriving DecidableEq, Repr

/-- The type `UserReq` (main.go, lines 27-29). -/
structure UserReq where
  GptMessage : String
deriving DecidableEq, Repr

/-- The part of `events.APIGatewayProxyRequest` the handler reads. -/
structure APIGatewayProxyRequest where
  Body : String
deriving DecidableEq, Repr

/-- The part of `events.APIGatewayProxyResponse` the handler sets; the fields
it never mentions keep their zero value. -/
structure APIGatewayProxyResponse where
  Body : String
  StatusCode : Int
deriving DecidableEq, Repr

/-- The type `ssm.GetParameterInput` as filled in by `getParameterFromSSM`. -/
structure GetParameterInput where
  Name : String
  WithDecryption : Bool
deriving DecidableEq, Repr

/-- An `http.Request`: method, URL, header and body.  The header is an
association list from key to the single value stored by `Header.Set`. -/
structure HttpRequest where
  Method : String
  URL : String
  Header : List (String × String)
  Body : String
deriving DecidableEq, Repr

/-- The body of an `http.Response` as seen by `ioutil.ReadAll`: the bytes
that can be read, and the error (if any) that ends the reading. -/
structure BodyReader where
  data : String
  err : Option GoError
deriving DecidableEq, Repr

/-- An `http.Response`: the status code of the third party and its body. -/
structure HttpResponse where
  StatusCode : Int
  Body : BodyReader
deriving DecidableEq, Repr

/-- A network call made by the handler. -/
inductive Call where
  | ssmGetParameter (region : String) (input : GetParameterInput)
  | httpDo (req : HttpRequest)
deriving DecidableEq, Repr

/-- The value handed to `json.Unmarshal` as its second argument `v`, as far as
`UserReq` is concerned: a struct value, a nil pointer, or a pointer to a
variable that currently holds `cur`. -/
inductive DecodeTarget where
  | nonPointer (v : UserReq)
  | nilPointer
  | pointer (cur : UserReq)
deriving DecidableEq, Repr

/-- The outcome of `json.Unmarshal`: the returned error and the value stored
through the pointer, when one was stored. -/
structure UnmarshalResult where
  err : Option GoError
  written : Option UserReq
deriving DecidableEq, Repr

/-- The collaborators outside the repository. -/
structure Env where
  /-- The scanner of `encoding/json`: `none` when the data is well-formed JSON,
  the scanner error otherwise. -/
  jsonCheckValid : String → Option GoError
  /-- The decoder of `encoding/json` filling a `UserReq` from well-formed data:
  the value left in the struct and the error reported, if any. -/
  jsonDecodeUserReq : String → UserReq → UserReq × Option GoError
  /-- The encoder `json.Marshal` on an `OpenAIRequest`. -/
  jsonMarshal : OpenAIRequest → Except GoError String
  /-- The call `session.NewSession` for a region: its error, if any. -/
  newSession : String → Option GoError
  /-- The call `GetParameter` of the SSM client of a region: the error, or the
  value of the parameter that a successful reply carries. -/
  ssmGetParameter : String → GetParameterInput → Except GoError String
  /-- The validation done by `http.NewRequest` on method and URL: its error,
  if any. -/
  newRequestCheck : String → String → Option GoError
  /-- The transport: `(&http.Client{}).Do`. -/
  clientDo : HttpRequest → Except GoError HttpResponse

/-- What one invocation of the handler yields: the two returned values, the
network calls performed in order, and the content of the local variable
`gptRequest` when the handler returns. -/
structure Run where
  response : APIGatewayProxyResponse
  err : Option GoError
  calls : List Call
  gptRequest : UserReq
deriving DecidableEq, Repr

/-! ## Standard library functions used by the handler -/

/-- The error `InvalidUnmarshalError` of `encoding/json` for a target of type
`main.UserReq` that is not a pointer. -/
def invalidUnmarshalNonPointer : GoError :=
  ⟨"json: Unmarshal(non-pointer main.UserReq)"⟩

/-- The error `InvalidUnmarshalError` of `encoding/json` for a nil pointer. -/
def invalidUnmarshalNilPointer : GoError :=
  ⟨"json: Unmarshal(nil *main.UserReq)"⟩

/-- The function `json.Unmarshal(data, v)`: the data is first checked for
well-formedness; then a target that is not a pointer, or is a nil pointer, is
refused with an `InvalidUnmarshalError`; only a non-nil pointer is decoded
into. -/
def jsonUnmarshal (env : Env) (data : String) (v : DecodeTarget) : UnmarshalResult :=
  match env.jsonCheckValid data with
  | some e => ⟨some e, none⟩
  | none =>
    match v with
    | .nonPointer _ => ⟨some invalidUnmarshalNonPointer, none⟩
    | .nilPointer => ⟨some invalidUnmarshalNilPointer, none⟩
    | .pointer cur =>
      let r := env.jsonDecodeUserReq data cur
      ⟨r.2, some r.1⟩

/-- The method `Header.Set(key, value)`: the entries of the key are replaced by
the single value.  Both keys used by the handler are already in canonical
form, so no canonicalisation is applied. -/
def headerSet (h : List (String × String)) (key value : String) : List (String × String) :=
  (h.filter (fun kv => kv.1 != key)) ++ [(key, value)]

/-- The method `Header.Get(key)`: the first value stored for the key. -/
def headerGet (h : List (String × String)) (key : String) : Option String :=
  (h.find? (fun kv => kv.1 == key)).map Prod.snd

/-- The function `http.NewRequest(method, url, body)`. -/
def httpNewRequest (env : Env) (method url body : String) : Except GoError HttpRequest :=
  match env.newRequestCheck method url with
  | some e => .error e
  | none => .ok { Method := method, URL := url, Header := [], Body := body }

/-- The function `ioutil.ReadAll`: the bytes read and the error, if any. -/
def ioutilReadAll (r : BodyReader) : String × Option GoError :=
  (r.data, r.err)

/-! ## The functions of `main.go` -/

/-- The instruction of the system message (main.go, line 80). -/
def systemInstruction : String :=
  "You are a conversational companion intended converse actively with the user, asking questions and providing appropriate reponses to statements and questions"

/-- The endpoint of the third party (main.go, line 94). -/
def openAIURL : String := "https://api.openai.com/v1/chat/completions"

/-- The function `getParameterFromSSM` (main.go, lines 33-54), with the calls
it makes to the parameter store. -/
def getParameterFromSSM (env : Env) (parameterName : String) :
    Except GoError String × List Call :=
  match env.newSession "us-east-1" with
  | some err => (.error err, [])
  | none =>
    let input : GetParameterInput := { Name := parameterName, WithDecryption := true }
    match env.ssmGetParameter "us-east-1" input with
    | .error err => (.error err, [Call.ssmGetParameter "us-east-1" input])
    | .ok value => (.ok value, [Call.ssmGetParameter "us-east-1" input])

/-- The literal `OpenAIRequest` built by the handler (main.go, lines 77-82). -/
def buildOpenAIRequest (gptRequest : UserReq) : OpenAIRequest :=
  { Model := "gpt-4",
    Messages :=
      [ { Role := "system", Content := systemInstruction },
        { Role := "user", Content := gptRequest.GptMessage } ] }

/-- The handler from the secret lookup on (main.go, lines 68-131), for a given
content of the local variable `gptRequest`.  The deferred `resp.Body.Close()`
has no effect on the returned values and is not recorded. -/
def handlerAfterDecode (env : Env) (gptRequest : UserReq) : Run :=
  match getParameterFromSSM env "openai-api-key" with
  | (.error err, calls) =>
    { response := { Body := err.msg, StatusCode := 500 }, err := none,
      calls := calls, gptRequest := gptRequest }
  | (.ok apiKey, calls) =>
    let openAIRequest := buildOpenAIRequest gptRequest
    match env.jsonMarshal openAIRequest with
    | .error _ =>
      { response := { Body := "Unable to marshal the JSON body", StatusCode := 500 },
        err := none, calls := calls, gptRequest := gptRequest }
    | .ok openAIReqJSON =>
      match httpNewRequest env "POST" openAIURL openAIReqJSON with
      | .error _ =>
        { response := { Body := "Unable to create the HTTP request", StatusCode := 500 },
          err := none, calls := calls, gptRequest := gptRequest }
      | .ok req0 =>
        let req1 := { req0 with Header := headerSet req0.Header "Content-Type" "application/json" }
        let req := { req1 with Header := headerSet req1.Header "Authorization" ("Bearer " ++ apiKey) }
        match env.clientDo req with
        | .error _ =>
          { response := { Body := "Unable to send the HTTP request", StatusCode := 500 },
            err := none, calls := calls ++ [Call.httpDo req], gptRequest := gptRequest }
        | .ok resp =>
          match ioutilReadAll resp.Body with
          | (_, some _) =>
            { response := { Body := "Unable to read the response body", StatusCode := 500 },
              err := none, calls := calls ++ [Call.httpDo req], gptRequest := gptRequest }
          | (body, none) =>
            { response := { Body := body, StatusCode := 200 },
              err := none, calls := calls ++ [Call.httpDo req], gptRequest := gptRequest }

/-- The function `handler` (main.go, lines 56-131).  The variable `gptRequest`
is declared with its zero value and handed to `json.Unmarshal` by value, so the
callee has no access to the variable and the handler keeps the value it
declared. -/
def handler (env : Env) (request : APIGatewayProxyRequest) : Run :=
  let gptRequest : UserReq := { GptMessage := "" }
  match (jsonUnmarshal env request.Body (DecodeTarget.nonPointer gptRequest)).err with
  | some _ =>
    { response := { Body := "Error in parsing JSON", StatusCode := 400 },
      err := none, calls := [], gptRequest := gptRequest }
  | none => handlerAfterDecode env gptRequest

/-! ## Notions used to state the properties -/

/-- The body is valid JSON of the shape of `UserReq`: the scanner accepts it
and decoding it into a fresh `UserReq` reports no error. -/
def wellFormedBody (env : Env) (body : String) : Bool :=
  (env.jsonCheckValid body).isNone &&
    (env.jsonDecodeUserReq body { GptMessage := "" }).2.isNone

/-- The call is a query of the secret store. -/
def isSecretQuery : Call → Bool
  | .ssmGetParameter _ _ => true
  | .httpDo _ => false

/-- The call is a call of the third-party API. -/
def isThirdPartyCall : Call → Bool
  | .ssmGetParameter _ _ => false
  | .httpDo _ => true

/-- The decode step of `handler` reports no error for this request. -/
def decodeSucceeds (env : Env) (request : APIGatewayProxyRequest) : Prop :=
  (jsonUnmarshal env request.Body (DecodeTarget.nonPointer { GptMessage := "" })).err = none

/-- The secret lookup of `handler` succeeds. -/
def secretSucceeds (env : Env) : Prop :=
  ∃ k, (getParameterFromSSM env "openai-api-key").1 = .ok k

/-- The request the third party is expected to receive for the secret `k` and
the encoded payload. -/
def expectedRequest (k payload : String) : HttpRequest :=
  { Method := "POST", URL := openAIURL,
    Header := [("Content-Type", "application/json"), ("Authorization", "Bearer " ++ k)],
    Body := payload }

/-- The query the secret store is expected to receive. -/
def expectedQuery : Call :=
  Call.ssmGetParameter "us-east-1" { Name := "openai-api-key", WithDecryption := true }

/-- Every step after the decode step succeeds and the body `b` is read from
the third party: the secret lookup, the encoding of the payload, the
construction of the request, its sending, and the reading of the reply. -/
def laterStepsSucceed (env : Env) (gptRequest : UserReq) (b : String) : Prop :=
  ∃ k payload resp,
    (getParameterFromSSM env "openai-api-key").1 = .ok k ∧
    env.jsonMarshal (buildOpenAIRequest gptRequest) = .ok payload ∧
    env.newRequestCheck "POST" openAIURL = none ∧
    env.clientDo (expectedRequest k payload) = .ok resp ∧
    resp.Body.err = none ∧ resp.Body.data = b

/-! ## Sample inputs -/

/-- The request body `{"gpt_message": "hi"}`. -/
def sampleBody : String := "\x7b\"gpt_message\": \"hi\"\x7d"

/-- A request body that is not JSON. -/
def brokenBody : String := "not json"

/-- The reply of a third party whose body reads as `b`. -/
def replyWith (b : String) : HttpResponse :=
  { StatusCode := 200, Body := { data := b, err := none } }

/-- A sample environment: the JSON library accepts `sampleBody` (and decodes
it to the message `hi`), the session is created, the encoder and the request
construction succeed; the secret store and the transport answer as given. -/
def sampleEnv (secret : Except GoError String) (reply : Except GoError HttpResponse) : Env :=
  { jsonCheckValid := fun s =>
      if s = sampleBody then none else some ⟨"invalid character in JSON text"⟩
    jsonDecodeUserReq := fun _ _ => ({ GptMessage := "hi" }, none)
    jsonMarshal := fun r => .ok (String.intercalate "|" (r.Model :: r.Messages.map (fun m => m.Role ++ ":" ++ m.Content)))
    newSession := fun _ => none
    ssmGetParameter := fun _ _ => secret
    newRequestCheck := fun _ _ => none
    clientDo := fun _ => reply }

end OpenAIRouter

/-! ## The decode step -/

namespace OpenAIRouter

/-- A target that is not a pointer is always refused: `json.Unmarshal` reports
an error whatever the data. -/
theorem jsonUnmarshal_nonPointer_err (env : Env) (data : String) (g : UserReq) :
    ∃ e, (jsonUnmarshal env data (DecodeTarget.nonPointer g)).err = some e := by
  unfold jsonUnmarshal
  cases env.jsonCheckValid data with
  | none => exact ⟨invalidUnmarshalNonPointer, rfl⟩
  | some e => exact ⟨e, rfl⟩

/-- A target that is not a pointer is never written. -/
theorem jsonUnmarshal_nonPointer_written (env : Env) (data : String) (g : UserReq) :
    (jsonUnmarshal env data (DecodeTarget.nonPointer g)).written = none := by
  unfold jsonUnmarshal
  cases env.jsonCheckValid data <;> rfl

/-- The run of `handler`, whatever the environment and the request. -/
theorem handler_eq (env : Env) (request : APIGatewayProxyRequest) :
    handler env request =
      { response := { Body := "Error in parsing JSON", StatusCode := 400 },
        err := none, calls := [], gptRequest := { GptMessage := "" } } := by
  obtain ⟨e, he⟩ := jsonUnmarshal_nonPointer_err env request.Body { GptMessage := "" }
  simp only [handler, he]

/-! ## The steps after the decode step -/

/-- The calls of `getParameterFromSSM`: none, or the one expected query. -/
theorem getParameterFromSSM_calls (env : Env) :
    (getParameterFromSSM env "openai-api-key").2 = [] ∨
      (getParameterFromSSM env "openai-api-key").2 = [expectedQuery] := by
  unfold getParameterFromSSM expectedQuery
  cases env.newSession "us-east-1" with
  | some e => left; rfl
  | none =>
    right
    simp only
    cases env.ssmGetParameter "us-east-1" { Name := "openai-api-key", WithDecryption := true } <;> rfl

/-- A successful lookup has made exactly the expected query. -/
theorem getParameterFromSSM_ok_calls (env : Env) (k : String)
    (h : (getParameterFromSSM env "openai-api-key").1 = .ok k) :
    (getParameterFromSSM env "openai-api-key").2 = [expectedQuery] := by
  unfold getParameterFromSSM expectedQuery at *
  cases hs : env.newSession "us-east-1" with
  | some e => simp [hs] at h
  | none =>
    simp only [hs] at h ⊢
    cases hq : env.ssmGetParameter "us-east-1" { Name := "openai-api-key", WithDecryption := true } <;> rfl

/-- On the path after the decode step: the request built for the secret `k`
and the payload is the expected one. -/
theorem built_request_eq (k payload : String) :
    ({ Method := "POST", URL := openAIURL,
       Header := headerSet (headerSet [] "Content-Type" "application/json")
         "Authorization" ("Bearer " ++ k),
       Body := payload } : HttpRequest) = expectedRequest k payload := by
  simp [expectedRequest, headerSet]

/-- The steps after the decode step, case by case: the run is determined by the
first step that fails. -/
theorem handlerAfterDecode_cases (env : Env) (g : UserReq) :
    (∃ e, (getParameterFromSSM env "openai-api-key").1 = .error e ∧
      handlerAfterDecode env g =
        ⟨⟨e.msg, 500⟩, none, (getParameterFromSSM env "openai-api-key").2, g⟩) ∨
    (∃ k, (getParameterFromSSM env "openai-api-key").1 = .ok k ∧
      ((∃ e, env.jsonMarshal (buildOpenAIRequest g) = .error e ∧
          handlerAfterDecode env g =
            ⟨⟨"Unable to marshal the JSON body", 500⟩, none, [expectedQuery], g⟩) ∨
       (∃ payload, env.jsonMarshal (buildOpenAIRequest g) = .ok payload ∧
         ((∃ e, env.newRequestCheck "POST" openAIURL = some e ∧
            handlerAfterDecode env g =
              ⟨⟨"Unable to create the HTTP request", 500⟩, none, [expectedQuery], g⟩) ∨
          (env.newRequestCheck "POST" openAIURL = none ∧
            ((∃ e, env.clientDo (expectedRequest k payload) = .error e ∧
                handlerAfterDecode env g =
                  ⟨⟨"Unable to send the HTTP request", 500⟩, none,
                    [expectedQuery, Call.httpDo (expectedRequest k payload)], g⟩) ∨
             (∃ resp, env.clientDo (expectedRequest k payload) = .ok resp ∧
               ((∃ e, resp.Body.err = some e ∧
                  handlerAfterDecode env g =
                    ⟨⟨"Unable to read the response body", 500⟩, none,
                      [expectedQuery, Call.httpDo (expectedRequest k payload)], g⟩) ∨
                (resp.Body.err = none ∧
                  handlerAfterDecode env g =
                    ⟨⟨resp.Body.data, 200⟩, none,
                      [expectedQuery, Call.httpDo (expectedRequest k payload)], g⟩))))))))) := by
  rcases hp : getParameterFromSSM env "openai-api-key" with ⟨r, calls⟩
  cases r with
  | error e =>
    left
    refine ⟨e, rfl, ?_⟩
    simp only [handlerAfterDecode, hp]
  | ok k =>
    right
    have hc : calls = [expectedQuery] := by
      have := getParameterFromSSM_ok_calls env k (by rw [hp])
      rw [hp] at this
      exact this
    subst hc
    refine ⟨k, rfl, ?_⟩
    cases hm : env.jsonMarshal (buildOpenAIRequest g) with
    | error e =>
      left
      refine ⟨e, rfl, ?_⟩
      simp only [handlerAfterDecode, hp, hm]
    | ok payload =>
      right
      refine ⟨payload, rfl, ?_⟩
      cases hn : env.newRequestCheck "POST" openAIURL with
      | some e =>
        left
        refine ⟨e, rfl, ?_⟩
        simp only [handlerAfterDecode, hp, hm, httpNewRequest, hn]
      | none =>
        right
        refine ⟨rfl, ?_⟩
        cases hd : env.clientDo (expectedRequest k payload) with
        | error e =>
          left
          refine ⟨e, rfl, ?_⟩
          simp only [handlerAfterDecode, hp, hm, httpNewRequest, hn, built_request_eq, hd,
            List.singleton_append]
        | ok resp =>
          right
          refine ⟨resp, rfl, ?_⟩
          cases hr : resp.Body.err with
          | some e =>
            left
            refine ⟨e, rfl, ?_⟩
            simp only [handlerAfterDecode, hp, hm, httpNewRequest, hn, built_request_eq, hd,
              ioutilReadAll, hr, List.singleton_append]
          | none =>
            right
            refine ⟨rfl, ?_⟩
            simp only [handlerAfterDecode, hp, hm, httpNewRequest, hn, built_request_eq, hd,
              ioutilReadAll, hr, List.singleton_append]

/-- After the decode step no Go error is returned. -/
theorem handlerAfterDecode_err (env : Env) (g : UserReq) :
    (handlerAfterDecode env g).err = none := by
  rcases handlerAfterDecode_cases env g with
    ⟨_, _, h⟩ | ⟨_, _, ⟨_, _, h⟩ | ⟨_, _, ⟨_, _, h⟩ | ⟨_, ⟨_, _, h⟩ | ⟨_, _, ⟨_, _, h⟩ | ⟨_, h⟩⟩⟩⟩⟩ <;>
  rw [h]

/-- After the decode step the status is 200 or 500. -/
theorem handlerAfterDecode_status (env : Env) (g : UserReq) :
    (handlerAfterDecode env g).response.StatusCode = 200 ∨
      (handlerAfterDecode env g).response.StatusCode = 500 := by
  rcases handlerAfterDecode_cases env g with
    ⟨_, _, h⟩ | ⟨_, _, ⟨_, _, h⟩ | ⟨_, _, ⟨_, _, h⟩ | ⟨_, ⟨_, _, h⟩ | ⟨_, _, ⟨_, _, h⟩ | ⟨_, h⟩⟩⟩⟩⟩ <;>
  rw [h] <;> simp

/-- After the decode step, a failing secret lookup gives status 500 with the
description of the error, and the third party is not called. -/
theorem handlerAfterDecode_secret_failure (env : Env) (g : UserReq) (e : GoError)
    (he : (getParameterFromSSM env "openai-api-key").1 = .error e) :
    (handlerAfterDecode env g).response = ⟨e.msg, 500⟩ ∧
      ∀ c ∈ (handlerAfterDecode env g).calls, isThirdPartyCall c = false := by
  rcases handlerAfterDecode_cases env g with ⟨e1, h1, h⟩ | ⟨k, hk, _⟩
  · rw [he] at h1
    cases h1
    rw [h]
    refine ⟨rfl, ?_⟩
    intro c hc
    rcases getParameterFromSSM_calls env with h0 | h0 <;> rw [h0] at hc
    · simp at hc
    · simp only [List.mem_singleton] at hc
      subst hc
      rfl
  · rw [he] at hk
    cases hk

/-- After the decode step, with the secret `k` and the payload encoded, a
transport failure gives status 500 and the fixed message. -/
theorem handlerAfterDecode_send_failure (env : Env) (g : UserReq) (k payload : String)
    (e : GoError)
    (hk : (getParameterFromSSM env "openai-api-key").1 = .ok k)
    (hm : env.jsonMarshal (buildOpenAIRequest g) = .ok payload)
    (hn : env.newRequestCheck "POST" openAIURL = none)
    (hd : env.clientDo (expectedRequest k payload) = .error e) :
    (handlerAfterDecode env g).response = ⟨"Unable to send the HTTP request", 500⟩ := by
  rcases handlerAfterDecode_cases env g with
    ⟨_, h1, _⟩ | ⟨k1, h1, ⟨_, h2, _⟩ | ⟨p1, h2, ⟨_, h3, _⟩ | ⟨_, ⟨_, _, h⟩ | ⟨_, h4, _⟩⟩⟩⟩
  · rw [hk] at h1; cases h1
  · rw [hm] at h2; cases h2
  · rw [hn] at h3; cases h3
  · rw [h]
  · rw [hk] at h1; cases h1
    rw [hm] at h2; cases h2
    rw [hd] at h4; cases h4

/-- After the decode step, with the reply of the third party at hand, a
failure to read its body gives status 500 and the fixed message. -/
theorem handlerAfterDecode_read_failure (env : Env) (g : UserReq) (k payload : String)
    (resp : HttpResponse) (e : GoError)
    (hk : (getParameterFromSSM env "openai-api-key").1 = .ok k)
    (hm : env.jsonMarshal (buildOpenAIRequest g) = .ok payload)
    (hn : env.newRequestCheck "POST" openAIURL = none)
    (hd : env.clientDo (expectedRequest k payload) = .ok resp)
    (hr : resp.Body.err = some e) :
    (handlerAfterDecode env g).response = ⟨"Unable to read the response body", 500⟩ := by
  rcases handlerAfterDecode_cases env g with
    ⟨_, h1, _⟩ | ⟨k1, h1, ⟨_, h2, _⟩ | ⟨p1, h2, ⟨_, h3, _⟩ |
      ⟨_, ⟨_, h4, _⟩ | ⟨r1, h4, ⟨_, _, h⟩ | ⟨h5, _⟩⟩⟩⟩⟩
  · rw [hk] at h1; cases h1
  · rw [hm] at h2; cases h2
  · rw [hn] at h3; cases h3
  · rw [hk] at h1; cases h1
    rw [hm] at h2; cases h2
    rw [hd] at h4; cases h4
  · rw [h]
  · rw [hk] at h1; cases h1
    rw [hm] at h2; cases h2
    rw [hd] at h4; cases h4
    rw [hr] at h5; cases h5

/-- After the decode step, when every later step succeeds the body read from
the third party is relayed with status 200. -/
theorem handlerAfterDecode_success (env : Env) (g : UserReq) (b : String)
    (h : laterStepsSucceed env g b) :
    (handlerAfterDecode env g).response = ⟨b, 200⟩ := by
  obtain ⟨k, payload, resp, hk, hm, hn, hd, hr, hb⟩ := h
  rcases handlerAfterDecode_cases env g with
    ⟨_, h1, _⟩ | ⟨k1, h1, ⟨_, h2, _⟩ | ⟨p1, h2, ⟨_, h3, _⟩ |
      ⟨_, ⟨_, h4, _⟩ | ⟨r1, h4, ⟨_, h5, _⟩ | ⟨_, h⟩⟩⟩⟩⟩
  · rw [hk] at h1; cases h1
  · rw [hm] at h2; cases h2
  · rw [hn] at h3; cases h3
  · rw [hk] at h1; cases h1
    rw [hm] at h2; cases h2
    rw [hd] at h4; cases h4
  · rw [hk] at h1; cases h1
    rw [hm] at h2; cases h2
    rw [hd] at h4; cases h4
    rw [hr] at h5; cases h5
  · rw [hk] at h1; cases h1
    rw [hm] at h2; cases h2
    rw [hd] at h4; cases h4
    rw [h, hb]

/-- After the decode step, status 200 is returned only when every later step
succeeded, and the body is then the one read from the third party. -/
theorem handlerAfterDecode_200_only (env : Env) (g : UserReq)
    (h : (handlerAfterDecode env g).response.StatusCode = 200) :
    laterStepsSucceed env g (handlerAfterDecode env g).response.Body := by
  rcases handlerAfterDecode_cases env g with
    ⟨_, _, h0⟩ | ⟨k, hk, ⟨_, _, h0⟩ | ⟨p, hm, ⟨_, _, h0⟩ |
      ⟨hn, ⟨_, _, h0⟩ | ⟨r, hd, ⟨_, _, h0⟩ | ⟨hr, h0⟩⟩⟩⟩⟩
  all_goals rw [h0] at h ⊢
  all_goals first
    | (simp at h; done)
    | exact ⟨k, p, r, hk, hm, hn, hd, hr, rfl⟩

/-- After the decode step the calls are: nothing, the query of the secret
store, or that query followed by one call of the third party carrying the
expected request; the last only when the secret lookup succeeded. -/
theorem handlerAfterDecode_calls (env : Env) (g : UserReq) :
    (handlerAfterDecode env g).calls = [] ∨
    (handlerAfterDecode env g).calls = [expectedQuery] ∨
    ∃ k payload, (getParameterFromSSM env "openai-api-key").1 = .ok k ∧
      env.jsonMarshal (buildOpenAIRequest g) = .ok payload ∧
      (handlerAfterDecode env g).calls =
        [expectedQuery, Call.httpDo (expectedRequest k payload)] := by
  rcases handlerAfterDecode_cases env g with
    ⟨_, _, h0⟩ | ⟨k, hk, ⟨_, _, h0⟩ | ⟨p, hm, ⟨_, _, h0⟩ |
      ⟨hn, ⟨_, _, h0⟩ | ⟨r, hd, ⟨_, _, h0⟩ | ⟨hr, h0⟩⟩⟩⟩⟩
  · rw [h0]
    rcases getParameterFromSSM_calls env with h | h
    · left; exact h
    · right; left; exact h
  · right; left; rw [h0]
  · right; left; rw [h0]
  · right; right; exact ⟨k, p, hk, hm, by rw [h0]⟩
  · right; right; exact ⟨k, p, hk, hm, by rw [h0]⟩
  · right; right; exact ⟨k, p, hk, hm, by rw [h0]⟩

end OpenAIRouter

/-! ## The properties of the handler -/

namespace OpenAIRouter

/-- C1 (defect of the code): for the well-formed body `{"gpt_message": "hi"}`,
a secret store that returns `sk-test` and a third party whose body reads as
`answer`, the handler answers 400 `Error in parsing JSON` and not 200 with the
body of the third party; the steps after the decode step, had they been
reached, relay that body with status 200. -/
theorem wellFormed_request_not_relayed :
    wellFormedBody (sampleEnv (.ok "sk-test") (.ok (replyWith "answer"))) sampleBody = true ∧
    (handler (sampleEnv (.ok "sk-test") (.ok (replyWith "answer"))) ⟨sampleBody⟩).response
      = ⟨"Error in parsing JSON", 400⟩ ∧
    (handler (sampleEnv (.ok "sk-test") (.ok (replyWith "answer"))) ⟨sampleBody⟩).response
      ≠ ⟨"answer", 200⟩ ∧
    (handlerAfterDecode (sampleEnv (.ok "sk-test") (.ok (replyWith "answer")))
      { GptMessage := "hi" }).response = ⟨"answer", 200⟩ := by
  decide

/-- C2: for every request whose body is not valid JSON of the shape of
`UserReq`, the handler answers exactly 400 with the body
`Error in parsing JSON`, returns no Go error, and calls neither the secret
store nor the third party. -/
theorem malformed_body_rejected (env : Env) (request : APIGatewayProxyRequest)
    (_h : wellFormedBody env request.Body = false) :
    (handler env request).response = ⟨"Error in parsing JSON", 400⟩ ∧
    (handler env request).err = none ∧
    (handler env request).calls = [] := by
  rw [handler_eq]
  exact ⟨rfl, rfl, rfl⟩

/-- The property C2 at the body `not json`. -/
theorem malformed_body_rejected_witness :
    wellFormedBody (sampleEnv (.ok "sk-test") (.ok (replyWith "answer"))) brokenBody = false ∧
    (handler (sampleEnv (.ok "sk-test") (.ok (replyWith "answer"))) ⟨brokenBody⟩).response
      = ⟨"Error in parsing JSON", 400⟩ ∧
    (handler (sampleEnv (.ok "sk-test") (.ok (replyWith "answer"))) ⟨brokenBody⟩).err = none ∧
    (handler (sampleEnv (.ok "sk-test") (.ok (replyWith "answer"))) ⟨brokenBody⟩).calls = [] :=
  ⟨by decide, malformed_body_rejected _ ⟨brokenBody⟩ (by decide)⟩

/-- C3 (defect of the code): for the well-formed body `{"gpt_message": "hi"}`
and a secret store that fails with `AccessDeniedException`, the handler answers
400 `Error in parsing JSON` without querying the secret store, and not 500
with the description of the failure; the steps after the decode step, had they
been reached, answer 500 with that description. -/
theorem secret_failure_not_reported :
    wellFormedBody (sampleEnv (.error ⟨"AccessDeniedException"⟩) (.ok (replyWith "answer")))
      sampleBody = true ∧
    (getParameterFromSSM (sampleEnv (.error ⟨"AccessDeniedException"⟩)
      (.ok (replyWith "answer"))) "openai-api-key").1 = .error ⟨"AccessDeniedException"⟩ ∧
    (handler (sampleEnv (.error ⟨"AccessDeniedException"⟩) (.ok (replyWith "answer")))
      ⟨sampleBody⟩).response = ⟨"Error in parsing JSON", 400⟩ ∧
    (handler (sampleEnv (.error ⟨"AccessDeniedException"⟩) (.ok (replyWith "answer")))
      ⟨sampleBody⟩).response ≠ ⟨"AccessDeniedException", 500⟩ ∧
    (handler (sampleEnv (.error ⟨"AccessDeniedException"⟩) (.ok (replyWith "answer")))
      ⟨sampleBody⟩).calls = [] ∧
    (handlerAfterDecode (sampleEnv (.error ⟨"AccessDeniedException"⟩) (.ok (replyWith "answer")))
      { GptMessage := "" }).response = ⟨"AccessDeniedException", 500⟩ :=
  ⟨by decide, rfl, by decide, by decide, by decide, by decide⟩

/-- C4 (defect of the code): for the well-formed body `{"gpt_message": "hi"}`,
with the secret store and the third party available, the handler sends no
payload at all (it makes no call), and the variable from which the payload
would be built holds the empty message, so that the user entry of the payload
would carry the empty string and not `hi`. -/
theorem payload_not_sent :
    wellFormedBody (sampleEnv (.ok "sk-test") (.ok (replyWith "answer"))) sampleBody = true ∧
    (handler (sampleEnv (.ok "sk-test") (.ok (replyWith "answer"))) ⟨sampleBody⟩).calls = [] ∧
    (buildOpenAIRequest
      (handler (sampleEnv (.ok "sk-test") (.ok (replyWith "answer"))) ⟨sampleBody⟩).gptRequest)
      = { Model := "gpt-4",
          Messages := [ { Role := "system", Content := systemInstruction },
                        { Role := "user", Content := "" } ] } ∧
    (buildOpenAIRequest
      (handler (sampleEnv (.ok "sk-test") (.ok (replyWith "answer"))) ⟨sampleBody⟩).gptRequest)
      ≠ { Model := "gpt-4",
          Messages := [ { Role := "system", Content := systemInstruction },
                        { Role := "user", Content := "hi" } ] } := by
  decide

/-- C5 (defect of the code): for the well-formed body `{"gpt_message": "hi"}`,
a secret store that returns `sk-test` and a transport that fails with
`connection refused`, the handler answers 400 `Error in parsing JSON` and not
500 `Unable to send the HTTP request`; the steps after the decode step, had
they been reached, answer 500 with that message. -/
theorem send_failure_not_reported :
    wellFormedBody (sampleEnv (.ok "sk-test") (.error ⟨"connection refused"⟩)) sampleBody
      = true ∧
    (handler (sampleEnv (.ok "sk-test") (.error ⟨"connection refused"⟩)) ⟨sampleBody⟩).response
      = ⟨"Error in parsing JSON", 400⟩ ∧
    (handler (sampleEnv (.ok "sk-test") (.error ⟨"connection refused"⟩)) ⟨sampleBody⟩).response
      ≠ ⟨"Unable to send the HTTP request", 500⟩ ∧
    (handlerAfterDecode (sampleEnv (.ok "sk-test") (.error ⟨"connection refused"⟩))
      { GptMessage := "" }).response = ⟨"Unable to send the HTTP request", 500⟩ := by
  decide

/-- C6 (defect of the code): for the well-formed body `{"gpt_message": "hi"}`,
a secret store that returns `sk-test` and a third party whose body breaks off
after `ans` with `unexpected EOF`, the handler answers 400
`Error in parsing JSON` and not 500 `Unable to read the response body`; the
steps after the decode step, had they been reached, answer 500 with that
message. -/
theorem read_failure_not_reported :
    wellFormedBody (sampleEnv (.ok "sk-test")
      (.ok ⟨200, ⟨"ans", some ⟨"unexpected EOF"⟩⟩⟩)) sampleBody = true ∧
    (handler (sampleEnv (.ok "sk-test") (.ok ⟨200, ⟨"ans", some ⟨"unexpected EOF"⟩⟩⟩))
      ⟨sampleBody⟩).response = ⟨"Error in parsing JSON", 400⟩ ∧
    (handler (sampleEnv (.ok "sk-test") (.ok ⟨200, ⟨"ans", some ⟨"unexpected EOF"⟩⟩⟩))
      ⟨sampleBody⟩).response ≠ ⟨"Unable to read the response body", 500⟩ ∧
    (handlerAfterDecode (sampleEnv (.ok "sk-test") (.ok ⟨200, ⟨"ans", some ⟨"unexpected EOF"⟩⟩⟩))
      { GptMessage := "" }).response = ⟨"Unable to read the response body", 500⟩ := by
  decide

end OpenAIRouter

namespace OpenAIRouter

/-- On the steps after the decode step (main.go, lines 68-108): a request
handed to the transport, when the secret lookup returned `k`, has method POST,
the fixed URL, the header Content-Type `application/json` and the header
Authorization `Bearer ` followed by exactly `k`. -/
theorem handlerAfterDecode_request_shape (env : Env) (g : UserReq) (k : String)
    (req : HttpRequest)
    (hk : (getParameterFromSSM env "openai-api-key").1 = .ok k)
    (hreq : Call.httpDo req ∈ (handlerAfterDecode env g).calls) :
    req.Method = "POST" ∧
    req.URL = "https://api.openai.com/v1/chat/completions" ∧
    headerGet req.Header "Content-Type" = some "application/json" ∧
    headerGet req.Header "Authorization" = some ("Bearer " ++ k) := by
  have key : req = expectedRequest k req.Body := by
    rcases handlerAfterDecode_calls env g with h0 | h0 | ⟨k1, p, hk1, _, h0⟩
    · rw [h0] at hreq
      simp at hreq
    · rw [h0] at hreq
      simp [expectedQuery] at hreq
    · rw [h0] at hreq
      rw [hk] at hk1
      cases hk1
      simp [expectedQuery] at hreq
      subst hreq
      rfl
  rw [key]
  simp [expectedRequest, openAIURL, headerGet, List.find?]

/-- C8: whatever the request and the outcomes of the collaborators, the handler
returns no Go error and a status among 200, 400 and 500; when some step fails
the status is 400 or 500; and status 200 is returned only when the decode step
and every later step succeeded.  The same holds of the steps after the decode
step, whatever the decoded message, with the statuses 200 and 500. -/
theorem handler_always_responds (env : Env) (request : APIGatewayProxyRequest) (g : UserReq) :
    ((handler env request).err = none ∧
     ((handler env request).response.StatusCode = 200 ∨
      (handler env request).response.StatusCode = 400 ∨
      (handler env request).response.StatusCode = 500) ∧
     (¬ (decodeSucceeds env request ∧
          ∃ b, laterStepsSucceed env (handler env request).gptRequest b) →
        (handler env request).response.StatusCode = 400 ∨
        (handler env request).response.StatusCode = 500) ∧
     ((handler env request).response.StatusCode = 200 →
        decodeSucceeds env request ∧
        laterStepsSucceed env (handler env request).gptRequest
          (handler env request).response.Body)) ∧
    ((handlerAfterDecode env g).err = none ∧
     ((handlerAfterDecode env g).response.StatusCode = 200 ∨
      (handlerAfterDecode env g).response.StatusCode = 500) ∧
     (¬ (∃ b, laterStepsSucceed env g b) →
        (handlerAfterDecode env g).response.StatusCode = 500) ∧
     ((handlerAfterDecode env g).response.StatusCode = 200 →
        laterStepsSucceed env g (handlerAfterDecode env g).response.Body)) := by
  refine ⟨?_, handlerAfterDecode_err env g, handlerAfterDecode_status env g, ?_,
    handlerAfterDecode_200_only env g⟩
  · rw [handler_eq]
    simp
  · intro hno
    rcases handlerAfterDecode_status env g with h | h
    · exact absurd ⟨_, handlerAfterDecode_200_only env g h⟩ hno
    · exact h

/-- C9: in every invocation the calls of the handler are nothing, one query of
the secret store, or one query of the secret store followed by one call of the
third party; hence each collaborator is called at most once and the query comes
first; and the third party is called only if the decode step and the secret
lookup succeeded.  The same holds of the steps after the decode step. -/
theorem handler_call_trace (env : Env) (request : APIGatewayProxyRequest) (g : UserReq) :
    (((handler env request).calls = [] ∨
      (∃ q, isSecretQuery q = true ∧ (handler env request).calls = [q]) ∨
      (∃ q t, isSecretQuery q = true ∧ isThirdPartyCall t = true ∧
        (handler env request).calls = [q, t])) ∧
     (handler env request).calls.countP isSecretQuery ≤ 1 ∧
     (handler env request).calls.countP isThirdPartyCall ≤ 1 ∧
     ((∃ c ∈ (handler env request).calls, isThirdPartyCall c = true) →
        decodeSucceeds env request ∧ secretSucceeds env)) ∧
    (((handlerAfterDecode env g).calls = [] ∨
      (∃ q, isSecretQuery q = true ∧ (handlerAfterDecode env g).calls = [q]) ∨
      (∃ q t, isSecretQuery q = true ∧ isThirdPartyCall t = true ∧
        (handlerAfterDecode env g).calls = [q, t])) ∧
     (handlerAfterDecode env g).calls.countP isSecretQuery ≤ 1 ∧
     (handlerAfterDecode env g).calls.countP isThirdPartyCall ≤ 1 ∧
     ((∃ c ∈ (handlerAfterDecode env g).calls, isThirdPartyCall c = true) →
        secretSucceeds env)) := by
  constructor
  · rw [handler_eq]
    simp
  · rcases handlerAfterDecode_calls env g with h0 | h0 | ⟨k, p, hk, _, h0⟩
    · rw [h0]
      simp
    · rw [h0]
      refine ⟨Or.inr (Or.inl ⟨expectedQuery, rfl, rfl⟩), ?_, ?_, ?_⟩
      · simp [expectedQuery, isSecretQuery]
      · simp [expectedQuery, isThirdPartyCall]
      · simp [expectedQuery, isThirdPartyCall]
    · rw [h0]
      refine ⟨Or.inr (Or.inr ⟨expectedQuery, Call.httpDo (expectedRequest k p), rfl, rfl, rfl⟩),
        ?_, ?_, ?_⟩
      · simp [expectedQuery, isSecretQuery, List.countP_cons]
      · simp [expectedQuery, isThirdPartyCall, List.countP_cons]
      · intro _
        exact ⟨k, hk⟩

/-- C10: the handler passes the `UserReq` value itself, not a pointer, to
`json.Unmarshal`; the decode step therefore reports an error for every request
body and stores nothing, and for every request the handler answers 400 with
the body `Error in parsing JSON` and no Go error, leaves `gptRequest` at its
zero value, and calls neither the secret store nor the third party. -/
theorem decode_always_fails (env : Env) (request : APIGatewayProxyRequest) :
    (∃ e, (jsonUnmarshal env request.Body
      (DecodeTarget.nonPointer { GptMessage := "" })).err = some e) ∧
    (jsonUnmarshal env request.Body
      (DecodeTarget.nonPointer { GptMessage := "" })).written = none ∧
    (handler env request).response = ⟨"Error in parsing JSON", 400⟩ ∧
    (handler env request).err = none ∧
    (handler env request).gptRequest = { GptMessage := "" } ∧
    (handler env request).calls = [] := by
  refine ⟨jsonUnmarshal_nonPointer_err env request.Body _,
    jsonUnmarshal_nonPointer_written env request.Body _, ?_⟩
  rw [handler_eq]
  exact ⟨rfl, rfl, rfl, rfl⟩

end OpenAIRouter
